import Mathlib

/-!
Shallow embedding of `src/main.rs` (rust-htmx): an axum server with a
counter store, a contact store with duplicate-email rejection, and a
minijinja template renderer.  The template engine is an external
collaborator (spec §1 treats it as a black box), so `render_block`
here produces a symbolic fragment recording the template name, the
block name and the render context; response bodies are lists of such
fragments (the Rust code concatenates the rendered strings in the
same order).  Mutex-guarded state becomes explicit state passing;
the `NEXT_ID` atomic becomes an explicitly threaded `nextId : Nat`.
-/

/-- `struct Contact { name, email, id }` (main.rs lines 228-233). -/
structure Contact where
  name : String
  email : String
  id : Nat
deriving DecidableEq, Repr

/-- `Contact::new` (main.rs lines 244-253): copies the strings and draws
`id` from the `NEXT_ID` atomic counter with `fetch_add(1)`.  The atomic
is threaded explicitly: the function returns the constructed contact
together with the advanced counter.  `NEXT_ID` starts at 1. -/
def Contact.new (name email : String) (nextId : Nat) : Contact × Nat :=
  ({ name := name, email := email, id := nextId }, nextId + 1)

/-- Association-list insert matching `HashMap::insert`: replaces the
value when the key is present, otherwise adds the binding. -/
def insertKV : List (String × String) → String → String → List (String × String)
  | [], k, v => [(k, v)]
  | (k', v') :: rest, k, v =>
      if k' = k then (k, v) :: rest else (k', v') :: insertKV rest k v

/-- Association-list lookup matching `HashMap::get`. -/
def lookupKV : List (String × String) → String → Option String
  | [], _ => none
  | (k', v) :: rest, k => if k' = k then some v else lookupKV rest k

/-- `struct FormRejectionData { values, errors }` (main.rs lines 187-191);
the two `HashMap<String, String>` fields are modelled as association
lists with `HashMap` insert/lookup semantics. -/
structure FormRejectionData where
  values : List (String × String)
  errors : List (String × String)
deriving DecidableEq, Repr

/-- `FormRejectionData::new` (main.rs lines 195-200): both maps empty. -/
def FormRejectionData.new : FormRejectionData :=
  { values := [], errors := [] }

/-- `FormRejectionData::set_value` (main.rs lines 202-204). -/
def FormRejectionData.set_value (fd : FormRejectionData) (key value : String) :
    FormRejectionData :=
  { fd with values := insertKV fd.values key value }

/-- `FormRejectionData::set_error` (main.rs lines 206-208). -/
def FormRejectionData.set_error (fd : FormRejectionData) (key error : String) :
    FormRejectionData :=
  { fd with errors := insertKV fd.errors key error }

/-- `struct FormData { name, email }` (main.rs lines 217-221): the
form-encoded fields of a contact submission. -/
structure FormData where
  name : String
  email : String
deriving DecidableEq, Repr

/-- The render contexts built by the `context!` macro at the call sites
in main.rs: `{count}` (counter.html), `{contacts, formdata}`,
`{formdata}` and `{contact}` (contacts.html). -/
inductive Ctx where
  | countCtx (count : Nat)
  | contactsCtx (contacts : List Contact) (formdata : FormRejectionData)
  | formdataCtx (formdata : FormRejectionData)
  | contactCtx (contact : Contact)
deriving DecidableEq, Repr

/-- A rendered fragment.  `render_block` (main.rs lines 279-291) hands a
template name, context and block name to the minijinja engine, an
external collaborator; the fragment is modelled symbolically as the
triple that determines it. -/
structure Fragment where
  tpl : String
  blk : String
  ctx : Ctx
deriving DecidableEq, Repr

/-- `render_block(state, tpl_name, tpl_ctx, tpl_blk)` (main.rs lines
279-291), with the engine state dropped (black box): returns the
symbolic fragment for that block of that template under that context. -/
def render_block (tpl_name : String) (tpl_ctx : Ctx) (tpl_blk : String) : Fragment :=
  { tpl := tpl_name, blk := tpl_blk, ctx := tpl_ctx }

/-- An HTTP response: status code and body.  The body is the list of
fragments the handler concatenates. -/
structure Response where
  status : Nat
  body : List Fragment
deriving DecidableEq, Repr

/-- `email_exists` (main.rs lines 178-185): linear scan with early
return on the first contact whose `email` equals the submitted one
(`String::eq`, exact byte-for-byte comparison). -/
def email_exists (email : String) : List Contact → Bool
  | [] => false
  | contact :: rest =>
      if contact.email = email then true else email_exists email rest

/-- `counter_handler` (main.rs lines 90-101): locks the count, renders
the `counter` block of counter.html with `{count}`, status 200.  The
returned `Nat` is the store value after the handler (read-only). -/
def counter_handler (count : Nat) : Response × Nat :=
  ({ status := 200,
     body := [render_block "counter.html" (.countCtx count) "counter"] },
   count)

/-- `increment_handler` (main.rs lines 103-115): locks the count, does
`*count += 1`, renders the `count` block of counter.html with the new
value, status 200.  (Rust defines `usize` overflow as a program error,
so the counter is a `Nat`.) -/
def increment_handler (count : Nat) : Response × Nat :=
  ({ status := 200,
     body := [render_block "counter.html" (.countCtx (count + 1)) "count"] },
   count + 1)

/-- `contacts_handler` (main.rs lines 117-129): locks the contacts,
builds the reversed view `contacts.iter().rev()`, renders the
`contacts` block of contacts.html with `{contacts => reversed,
formdata => FormRejectionData::new()}`, status 200.  The returned list
is the store contents after the handler (read-only). -/
def contacts_handler (contacts : List Contact) : Response × List Contact :=
  ({ status := 200,
     body := [render_block "contacts.html"
       (.contactsCtx contacts.reverse FormRejectionData.new) "contacts"] },
   contacts)

/-- Result of `add_contact_handler`: the response plus the contact
store and the `NEXT_ID` counter after the call. -/
structure AddContactResult where
  response : Response
  contacts : List Contact
  nextId : Nat
deriving DecidableEq, Repr

/-- `add_contact_handler` (main.rs lines 131-170), faithful to the
source order: `Contact::new` is called FIRST (line 136, consuming an id
from `NEXT_ID`), then `email_exists` is checked.  If absent: push the
new contact, render the `form` block with a fresh empty
`FormRejectionData` and the `oob_contact` block with the new contact,
concatenate, status 200.  If present: build rejection data carrying the
submitted name/email and the error `email => "Email already exists"`,
render only the `form` block with it, status 422. -/
def add_contact_handler (form : FormData) (contacts : List Contact)
    (nextId : Nat) : AddContactResult :=
  let p := Contact.new form.name form.email nextId
  let new_contact := p.1
  if ¬ email_exists form.email contacts then
    { response :=
        { status := 200,
          body := [render_block "contacts.html"
                     (.formdataCtx FormRejectionData.new) "form",
                   render_block "contacts.html"
                     (.contactCtx new_contact) "oob_contact"] },
      contacts := contacts ++ [new_contact],
      nextId := p.2 }
  else
    let form_rejection_data :=
      ((FormRejectionData.new.set_value "name" form.name).set_value
          "email" form.email).set_error "email" "Email already exists"
    { response :=
        { status := 422,
          body := [render_block "contacts.html"
                     (.formdataCtx form_rejection_data) "form"] },
      contacts := contacts,
      nextId := p.2 }

/-- A sequence of `Contact::new` calls (seed contacts in `main`, line
41, and submissions through `add_contact_handler` alike), threading the
`NEXT_ID` counter through each construction. -/
def mk_contacts : List (String × String) → Nat → List Contact × Nat
  | [], nextId => ([], nextId)
  | (name, email) :: rest, nextId =>
      let p := Contact.new name email nextId
      let q := mk_contacts rest p.2
      (p.1 :: q.1, q.2)

/-!
Lock/render event traces.  Each handler acquires its store's
`Mutex` with `lock().await` and binds the guard to a local variable;
Rust drops the guard at the end of the enclosing scope, which in every
handler is the end of the function body — after the `render_block`
call(s).  The traces below record, per handler and per exit path, the
order of the acquire, render and release events as they appear in the
source.
-/

/-- An abstract event in a handler's execution: acquiring a store lock,
invoking `render_block` on a named block, or releasing a store lock. -/
inductive Event where
  | acquire (store : String)
  | render (blk : String)
  | release (store : String)
deriving DecidableEq, Repr

/-- `counter_handler` (main.rs lines 90-101): the `count` guard (line
91) lives until the function returns, so it is released after the
`counter` block is rendered. -/
def counter_handler_events : List Event :=
  [.acquire "count", .render "counter", .release "count"]

/-- `increment_handler` (main.rs lines 103-115): the `count` guard
(line 104) lives until the function returns, after the `count` block is
rendered. -/
def increment_handler_events : List Event :=
  [.acquire "count", .render "count", .release "count"]

/-- `contacts_handler` (main.rs lines 117-129): the `contacts` guard
(line 118) lives until the function returns; the reversed view (line
119) even borrows from it, so the `contacts` render happens under the
lock. -/
def contacts_handler_events : List Event :=
  [.acquire "contacts", .render "contacts", .release "contacts"]

/-- `add_contact_handler` (main.rs lines 131-170): the `contacts` guard
(line 135) is dropped at the early `return` (line 151-154) on the
success path and at the final return (line 169) on the duplicate path —
in both cases after the render calls of that path. -/
def add_contact_handler_events (duplicate : Bool) : List Event :=
  if duplicate then
    [.acquire "contacts", .render "form", .release "contacts"]
  else
    [.acquire "contacts", .render "form", .render "oob_contact",
     .release "contacts"]

/-- Scans a trace with a held-flag: `true` iff some render event occurs
while a lock is held. -/
def someRenderWhileHeld : Bool → List Event → Bool
  | _, [] => false
  | _, Event.acquire _ :: rest => someRenderWhileHeld true rest
  | _, Event.release _ :: rest => someRenderWhileHeld false rest
  | held, Event.render _ :: rest => held || someRenderWhileHeld held rest

/-- Scans a trace with a held-flag: `true` iff every render event
occurs while a lock is held. -/
def allRendersWhileHeld : Bool → List Event → Bool
  | _, [] => true
  | _, Event.acquire _ :: rest => allRendersWhileHeld true rest
  | _, Event.release _ :: rest => allRendersWhileHeld false rest
  | held, Event.render _ :: rest => held && allRendersWhileHeld held rest

/-- The ids assigned by a sequence of constructions are the consecutive
naturals starting at the initial counter value. -/
theorem mk_contacts_ids (l : List (String × String)) (n : Nat) :
    ((mk_contacts l n).1).map Contact.id = List.range' n l.length := by
  induction l generalizing n with
  | nil => rfl
  | cons p rest ih =>
      simp [mk_contacts, Contact.new, List.range'_succ, ih]

/-- C1 counterexample: with the seed contact store and `NEXT_ID = 2`, a
submission whose email duplicates the seed contact leaves the contact
collection unchanged, yet the id counter IS advanced — `Contact::new`
runs before the duplicate check, so the claim "no id consumed, the
monotonic id counter is not advanced" is false at this input. -/
theorem C1_counterexample :
    email_exists "johndoe@hotmail.com"
      [⟨"John Doe", "johndoe@hotmail.com", 1⟩] = true ∧
    (add_contact_handler ⟨"Jane R2", "johndoe@hotmail.com"⟩
        [⟨"John Doe", "johndoe@hotmail.com", 1⟩] 2).contacts =
      [⟨"John Doe", "johndoe@hotmail.com", 1⟩] ∧
    ¬ (add_contact_handler ⟨"Jane R2", "johndoe@hotmail.com"⟩
        [⟨"John Doe", "johndoe@hotmail.com", 1⟩] 2).nextId = 2 := by
  decide

/-- C1 (amended): on a duplicate-email submission the handler rejects
with status 422 and leaves the contact collection unchanged, but an id
is consumed nonetheless: the monotonic id counter advances by one, since
`Contact::new` is called before the duplicate check. -/
theorem C1_duplicate_no_insert_but_id_consumed
    (form : FormData) (contacts : List Contact) (nextId : Nat)
    (h : email_exists form.email contacts = true) :
    (add_contact_handler form contacts nextId).contacts = contacts ∧
    (add_contact_handler form contacts nextId).response.status = 422 ∧
    (add_contact_handler form contacts nextId).nextId = nextId + 1 := by
  simp [add_contact_handler, h, Contact.new]

/-- Witness for C1: the amended theorem applied at the seed store with
a duplicate email. -/
theorem C1_witness :
    email_exists "johndoe@hotmail.com"
      [⟨"John Doe", "johndoe@hotmail.com", 1⟩] = true ∧
    ((add_contact_handler ⟨"Jane R2", "johndoe@hotmail.com"⟩
        [⟨"John Doe", "johndoe@hotmail.com", 1⟩] 2).contacts =
      [⟨"John Doe", "johndoe@hotmail.com", 1⟩] ∧
    (add_contact_handler ⟨"Jane R2", "johndoe@hotmail.com"⟩
        [⟨"John Doe", "johndoe@hotmail.com", 1⟩] 2).response.status = 422 ∧
    (add_contact_handler ⟨"Jane R2", "johndoe@hotmail.com"⟩
        [⟨"John Doe", "johndoe@hotmail.com", 1⟩] 2).nextId = 3) :=
  ⟨by decide, C1_duplicate_no_insert_but_id_consumed _ _ _ (by decide)⟩

/-- C2: when the submitted email is not in the collection, the handler
appends the new contact at the end, returns status 200, and the body is
exactly the `form` block with empty form state followed by the
`oob_contact` block for the new contact. -/
theorem C2_success_appends_and_renders
    (form : FormData) (contacts : List Contact) (nextId : Nat)
    (h : email_exists form.email contacts = false) :
    add_contact_handler form contacts nextId =
      { response :=
          { status := 200,
            body := [render_block "contacts.html"
                       (.formdataCtx FormRejectionData.new) "form",
                     render_block "contacts.html"
                       (.contactCtx ⟨form.name, form.email, nextId⟩)
                       "oob_contact"] },
        contacts := contacts ++ [⟨form.name, form.email, nextId⟩],
        nextId := nextId + 1 } := by
  simp [add_contact_handler, h, Contact.new]

/-- Witness for C2: submitting Jane against the seed store. -/
theorem C2_witness :
    email_exists "jane@example.com"
      [⟨"John Doe", "johndoe@hotmail.com", 1⟩] = false ∧
    add_contact_handler ⟨"Jane Roe", "jane@example.com"⟩
        [⟨"John Doe", "johndoe@hotmail.com", 1⟩] 2 =
      { response :=
          { status := 200,
            body := [render_block "contacts.html"
                       (.formdataCtx FormRejectionData.new) "form",
                     render_block "contacts.html"
                       (.contactCtx ⟨"Jane Roe", "jane@example.com", 2⟩)
                       "oob_contact"] },
        contacts := [⟨"John Doe", "johndoe@hotmail.com", 1⟩] ++
          [⟨"Jane Roe", "jane@example.com", 2⟩],
        nextId := 2 + 1 } :=
  ⟨by decide, C2_success_appends_and_renders _ _ _ (by decide)⟩

/-- C3: when the submitted email is already present, the handler returns
status 422, the collection length is unchanged, and the body is only the
`form` block whose form state carries back the submitted name and email
and an error on the `email` field reading "Email already exists". -/
theorem C3_duplicate_rejected_with_form_state
    (form : FormData) (contacts : List Contact) (nextId : Nat)
    (h : email_exists form.email contacts = true) :
    (add_contact_handler form contacts nextId).response.status = 422 ∧
    (add_contact_handler form contacts nextId).contacts.length =
      contacts.length ∧
    ∃ fd : FormRejectionData,
      (add_contact_handler form contacts nextId).response.body =
        [render_block "contacts.html" (.formdataCtx fd) "form"] ∧
      lookupKV fd.values "name" = some form.name ∧
      lookupKV fd.values "email" = some form.email ∧
      lookupKV fd.errors "email" = some "Email already exists" := by
  refine ⟨?_, ?_, ?_⟩
  · simp [add_contact_handler, h]
  · simp [add_contact_handler, h]
  refine ⟨((FormRejectionData.new.set_value "name" form.name).set_value
      "email" form.email).set_error "email" "Email already exists",
    ?_, ?_, ?_, ?_⟩ <;>
    simp [add_contact_handler, h, FormRejectionData.new,
      FormRejectionData.set_value, FormRejectionData.set_error,
      insertKV, lookupKV]

/-- Witness for C3: resubmitting the seed contact's email. -/
theorem C3_witness :
    email_exists "johndoe@hotmail.com"
      [⟨"John Doe", "johndoe@hotmail.com", 1⟩] = true ∧
    ((add_contact_handler ⟨"Jane R2", "johndoe@hotmail.com"⟩
        [⟨"John Doe", "johndoe@hotmail.com", 1⟩] 2).response.status = 422 ∧
    (add_contact_handler ⟨"Jane R2", "johndoe@hotmail.com"⟩
        [⟨"John Doe", "johndoe@hotmail.com", 1⟩] 2).contacts.length = 1 ∧
    ∃ fd : FormRejectionData,
      (add_contact_handler ⟨"Jane R2", "johndoe@hotmail.com"⟩
          [⟨"John Doe", "johndoe@hotmail.com", 1⟩] 2).response.body =
        [render_block "contacts.html" (.formdataCtx fd) "form"] ∧
      lookupKV fd.values "name" = some "Jane R2" ∧
      lookupKV fd.values "email" = some "johndoe@hotmail.com" ∧
      lookupKV fd.errors "email" = some "Email already exists") :=
  ⟨by decide, C3_duplicate_rejected_with_form_state _ _ _ (by decide)⟩

/-- C4: the duplicate check rejects iff some stored contact's email is
byte-for-byte equal to the submitted email; in particular an email
differing only in letter case from a stored one is not rejected. -/
theorem C4_email_exists_exact_match :
    (∀ (email : String) (contacts : List Contact),
        email_exists email contacts = true ↔
          ∃ c ∈ contacts, c.email = email) ∧
    email_exists "JohnDoe@Hotmail.com"
      [⟨"John Doe", "johndoe@hotmail.com", 1⟩] = false := by
  constructor
  · intro email contacts
    induction contacts with
    | nil => simp [email_exists]
    | cons c rest ih =>
        by_cases hc : c.email = email
        · simp [email_exists, hc]
        · simp [email_exists, hc, ih]
  · decide

/-- C5: the contacts handler leaves the store unchanged, returns 200
and renders the `contacts` block with the reversed (most-recent-first)
view and empty form state: position `i` of the displayed list is
position `length - 1 - i` of the stored list. -/
theorem C5_contacts_view_most_recent_first (contacts : List Contact) :
    contacts_handler contacts =
      ({ status := 200,
         body := [render_block "contacts.html"
           (.contactsCtx contacts.reverse FormRejectionData.new)
           "contacts"] },
       contacts) ∧
    contacts.reverse.length = contacts.length ∧
    ∀ i, i < contacts.length →
      contacts.reverse[i]? = contacts[contacts.length - 1 - i]? := by
  refine ⟨rfl, by simp, ?_⟩
  intro i hi
  exact List.getElem?_reverse hi

/-- Witness for C5: the displayed list of a two-contact store starts
with the most recently stored contact. -/
theorem C5_witness :
    ([⟨"John Doe", "johndoe@hotmail.com", 1⟩,
      ⟨"Jane Roe", "jane@example.com", 2⟩] : List Contact).reverse[0]? =
      [⟨"John Doe", "johndoe@hotmail.com", 1⟩,
       ⟨"Jane Roe", "jane@example.com", 2⟩][1]? :=
  (C5_contacts_view_most_recent_first _).2.2 0 (by decide)

/-- C6: incrementing from `v` sets the counter to `v + 1`, returns
status 200 and renders the `count` block — not the wider `counter`
block — of counter.html with the new value. -/
theorem C6_increment_renders_count_block (v : Nat) :
    increment_handler v =
      ({ status := 200,
         body := [render_block "counter.html" (.countCtx (v + 1))
           "count"] },
       v + 1) ∧
    (render_block "counter.html" (.countCtx (v + 1)) "count").blk =
      "count" ∧
    (render_block "counter.html" (.countCtx (v + 1)) "count").blk ≠
      "counter" := by
  exact ⟨rfl, rfl, by simp [render_block]⟩

/-- Witness for C6: incrementing from 0. -/
theorem C6_witness :
    increment_handler 0 =
      ({ status := 200,
         body := [render_block "counter.html" (.countCtx 1) "count"] },
       1) ∧
    (render_block "counter.html" (.countCtx 1) "count").blk = "count" ∧
    (render_block "counter.html" (.countCtx 1) "count").blk ≠
      "counter" :=
  C6_increment_renders_count_block 0

/-- C7: across any sequence of `Contact::new` constructions (seed
contacts and submissions alike), the assigned ids are strictly
increasing in construction order, hence pairwise distinct. -/
theorem C7_ids_strictly_increasing (l : List (String × String)) (n : Nat) :
    (((mk_contacts l n).1).map Contact.id).Pairwise (· < ·) ∧
    (((mk_contacts l n).1).map Contact.id).Pairwise (· ≠ ·) := by
  rw [mk_contacts_ids]
  have hlt : (List.range' n l.length).Pairwise (· < ·) :=
    List.pairwise_lt_range' n l.length
  exact ⟨hlt, hlt.imp fun hab => Nat.ne_of_lt hab⟩

/-- C8 counterexample: in `increment_handler` the guard returned by
`lock().await` lives to the end of the function, so a render event
occurs while the lock is held — refuting "no store lock is held across
a render_block invocation" at this handler. -/
theorem C8_counterexample :
    someRenderWhileHeld false increment_handler_events = true := by
  decide

/-- C8 (amended): in every handler the store lock is held during every
`render_block` invocation and is released only at the end of the
handler, after rendering, on every exit path. -/
theorem C8_lock_held_across_render :
    allRendersWhileHeld false counter_handler_events = true ∧
    allRendersWhileHeld false increment_handler_events = true ∧
    allRendersWhileHeld false contacts_handler_events = true ∧
    (∀ duplicate : Bool,
      allRendersWhileHeld false (add_contact_handler_events duplicate) =
        true) ∧
    counter_handler_events.getLast? = some (Event.release "count") ∧
    increment_handler_events.getLast? = some (Event.release "count") ∧
    contacts_handler_events.getLast? = some (Event.release "contacts") ∧
    (∀ duplicate : Bool,
      (add_contact_handler_events duplicate).getLast? =
        some (Event.release "contacts")) := by
  decide

/-- C9: reading the counter twice with no intervening increment yields
the same response (same fragment) both times, and neither call mutates
the counter. -/
theorem C9_counter_get_idempotent (v : Nat) :
    (counter_handler v).2 = v ∧
    counter_handler ((counter_handler v).2) = counter_handler v :=
  ⟨rfl, rfl⟩

/-- Witness for C9: reading twice from 5. -/
theorem C9_witness :
    (counter_handler 5).2 = 5 ∧
    counter_handler ((counter_handler 5).2) = counter_handler 5 :=
  C9_counter_get_idempotent 5

/-- C10: the submission handler validates nothing but the duplicate
email: for every name and email (empty strings included), if the email
is absent the submission succeeds with status 200 and the contact is
inserted exactly as given. -/
theorem C10_no_field_validation (name email : String)
    (contacts : List Contact) (nextId : Nat)
    (h : email_exists email contacts = false) :
    (add_contact_handler ⟨name, email⟩ contacts nextId).response.status =
      200 ∧
    (add_contact_handler ⟨name, email⟩ contacts nextId).contacts =
      contacts ++ [⟨name, email, nextId⟩] := by
  simp [add_contact_handler, h, Contact.new]

/-- Witness for C10: submitting empty name and email into an empty
store succeeds. -/
theorem C10_witness :
    email_exists "" [] = false ∧
    ((add_contact_handler ⟨"", ""⟩ [] 1).response.status = 200 ∧
     (add_contact_handler ⟨"", ""⟩ [] 1).contacts =
       [] ++ [⟨"", "", 1⟩]) :=
  ⟨by decide, C10_no_field_validation "" "" [] 1 (by decide)⟩
